import Mathlib

/-!
# Schunk SVH ROS driver: the wrapper's control logic

A shallow embedding of `src/SVHWrapper.cpp` and of the `Settings` record of
`include/DynamicParameterClass.h`.

The finger manager (`driver_svh::SVHFingerManager`), the parameter server and
the body of the `DynamicParameter` constructor are not part of the two source
files; they enter the model as parameters (`SVHFingerManager M`, `Env M`).
Every call the wrapper makes on them is appended to a ghost field `trace`, so
that "is invoked" and "is never invoked" are statements about that list.

Floating point values are only carried around by the wrapper, never computed
with; they are Lean `Float`s.
-/

set_option linter.dupNamespace false

namespace SVH

/-! ## Constants and casts -/

/-- Modelled from the spec: `driver_svh::SVH_DIMENSION` is declared in the
external driver library; it is the fixed number N of hardware channels, 9
(the wrapper's constructor also loops `i < 9` over a vector of that size). -/
def SVH_DIMENSION : Nat := 9

/-- The enum `driver_svh::SVHChannel`, by the integer value of its enumerators. -/
abbrev SVHChannel := Int

/-- Modelled from the spec: `driver_svh::SVH_ALL`, the pseudo channel "all
channels" of the external driver library; a value outside `[0, N)`. -/
def SVH_ALL : SVHChannel := -1

/-- `static_cast<driver_svh::SVHChannel>(n)` for an unsigned `n`: the value is
kept when it fits the enum's underlying `int`, and wraps modulo 2^32 into the
signed range otherwise. -/
def static_cast_SVHChannel (n : Nat) : SVHChannel :=
  if n % 2 ^ 32 < 2 ^ 31 then ((n % 2 ^ 32 : Nat) : Int)
  else ((n % 2 ^ 32 : Nat) : Int) - 2 ^ 32

/-- `static_cast<uint16_t>(i)` for an `int` i: reduction modulo 2^16. -/
def static_cast_uint16 (i : Int) : Nat := (i % 2 ^ 16).toNat

/-- Conversion of a `bool` to `float`, as in `return false;` inside a function
returning `float`. -/
def floatOfBool (b : Bool) : Float := if b then 1.0 else 0.0

/-! ## DynamicParameter::Settings -/

/-- `DynamicParameter::Settings` (DynamicParameterClass.h, lines 66-91). -/
structure Settings where
  position_settings : List (List Float)
  position_settings_given : List Bool
  current_settings : List (List Float)
  current_settings_given : List Bool
  home_settings : List (List Float)
  home_settings_given : List Bool
  major_version : Nat
  minor_version : Nat

/-- The constructor `Settings()` (lines 68-78): every container is created with
`SVH_DIMENSION` entries, the flag vectors filled with `false`. -/
def Settings.Settings : Settings where
  position_settings := List.replicate SVH_DIMENSION []
  position_settings_given := List.replicate SVH_DIMENSION false
  current_settings := List.replicate SVH_DIMENSION []
  current_settings_given := List.replicate SVH_DIMENSION false
  home_settings := List.replicate SVH_DIMENSION []
  home_settings_given := List.replicate SVH_DIMENSION false
  major_version := 0
  minor_version := 0

/-! ## External collaborators -/

/-- `driver_svh::SVHFirmwareInfo`: the two version fields read by `connect`,
both `uint16_t`. -/
structure SVHFirmwareInfo where
  version_major : Fin 65536
  version_minor : Fin 65536

/-- The value type of the parameter server, `XmlRpc::XmlRpcValue`. The wrapper
only hands it on to the `DynamicParameter` constructor. -/
inductive XmlRpcValue where
  | boolean (b : Bool)
  | int (i : Int)
  | double (d : Float)
  | string (s : String)
  | array (xs : List XmlRpcValue)
  | struct (members : List (String × XmlRpcValue))

/-- What `m_priv_nh.getParam(name, value)` can do: return true and fill the
value, return false, or throw `ros::InvalidNameException`. -/
inductive GetParamResult where
  | found (value : XmlRpcValue)
  | notFound
  | invalidName

/-- An exception leaving the `DynamicParameter` constructor: either the
`ros::InvalidNameException` that `initControllerParameters` catches, or any
other exception, which it does not catch. -/
inductive CtorException where
  | InvalidNameException
  | other (what : String)

/-- One call of the wrapper on a collaborator, with its arguments. -/
inductive Call where
  | isConnected
  | disconnect
  | getFirmwareInfo (dev : String) (retry_count : Int)
  | connect (dev : String) (retry_count : Int)
  | resetChannel (channel : SVHChannel)
  | isHomed (channel : SVHChannel)
  | setForceLimit (channel : SVHChannel) (force_limit : Float)
  | setCurrentSettings (channel : SVHChannel) (settings : List Float)
  | setPositionSettings (channel : SVHChannel) (settings : List Float)
  | setHomeSettings (channel : SVHChannel) (settings : List Float)
  | DynamicParameter (major_version minor_version : Nat)

/-- The call is one of the three settings setters. -/
def Call.isSettingsSetter : Call → Bool
  | .setCurrentSettings _ _ => true
  | .setPositionSettings _ _ => true
  | .setHomeSettings _ _ => true
  | _ => false

/-- The call is `setForceLimit`; the result is the channel it was given. -/
def Call.forceLimitChannel : Call → Option SVHChannel
  | .setForceLimit channel _ => some channel
  | _ => none

/-- The call constructs a `DynamicParameter` for the given version pair. -/
def Call.isDynamicParameterFor (major minor : Nat) : Call → Bool
  | .DynamicParameter a b => a == major && b == minor
  | _ => false

/-- The call is `connect` of the finger manager. -/
def Call.isConnect : Call → Bool
  | .connect _ _ => true
  | _ => false

/-- The part of `driver_svh::SVHFingerManager` the wrapper uses, over an
arbitrary manager state `M`. Queries (`isConnected`, `isHomed`) read the
state; the other methods return the new state, with their result if the
wrapper uses it. -/
structure SVHFingerManager (M : Type) where
  isConnected : M → Bool
  disconnect : M → M
  getFirmwareInfo : String → Int → M → SVHFirmwareInfo × M
  connect : String → Int → M → Bool × M
  resetChannel : SVHChannel → M → Bool × M
  isHomed : SVHChannel → M → Bool
  setForceLimit : SVHChannel → Float → M → Float × M
  setCurrentSettings : SVHChannel → List Float → M → M
  setPositionSettings : SVHChannel → List Float → M → M
  setHomeSettings : SVHChannel → List Float → M → M

/-- Everything outside the wrapper: the finger manager's behaviour, the
parameter server, and the `DynamicParameter` constructor (declared in
DynamicParameterClass.h, lines 58-60; its body is not in the source files),
which either throws or leaves the `Settings` that `getSettings()` returns. -/
structure Env (M : Type) where
  mgr : SVHFingerManager M
  getParam : String → GetParamResult
  DynamicParameter : Nat → Nat → XmlRpcValue → Except CtorException Settings

/-! ## The wrapper -/

/-- The members of `SVHWrapper` that its control logic reads or writes, and
the ghost `trace` of calls made so far. -/
structure SVHWrapper (M : Type) where
  m_channels_enabled : Bool
  m_firmware_major_version : Int
  m_firmware_minor_version : Int
  m_serial_device_name : String
  m_connect_retry_count : Int
  m_finger_manager : M
  trace : List Call

/-- How a member function ends: it returns, the process is terminated by
`exit(code)`, an exception propagates to the caller, or a vector was indexed
out of bounds (undefined behaviour). -/
inductive Outcome (α : Type) where
  | returned (value : α)
  | exited (code : Int)
  | thrown (e : CtorException)
  | outOfBounds

/-- `SVHWrapper::setRosControlEnable` (lines 136-139). -/
def setRosControlEnable {M : Type} (enable : Bool) (w : SVHWrapper M) : SVHWrapper M :=
  { w with m_channels_enabled := enable }

/-- `m_finger_manager->setCurrentSettings(channel, SVHCurrentSettings(v))`. -/
def callSetCurrentSettings {M : Type} (env : Env M) (channel : SVHChannel) (v : List Float)
    (w : SVHWrapper M) : SVHWrapper M :=
  { w with
    m_finger_manager := env.mgr.setCurrentSettings channel v w.m_finger_manager
    trace := w.trace ++ [Call.setCurrentSettings channel v] }

/-- `m_finger_manager->setPositionSettings(channel, SVHPositionSettings(v))`. -/
def callSetPositionSettings {M : Type} (env : Env M) (channel : SVHChannel) (v : List Float)
    (w : SVHWrapper M) : SVHWrapper M :=
  { w with
    m_finger_manager := env.mgr.setPositionSettings channel v w.m_finger_manager
    trace := w.trace ++ [Call.setPositionSettings channel v] }

/-- `m_finger_manager->setHomeSettings(channel, SVHHomeSettings(v))`. -/
def callSetHomeSettings {M : Type} (env : Env M) (channel : SVHChannel) (v : List Float)
    (w : SVHWrapper M) : SVHWrapper M :=
  { w with
    m_finger_manager := env.mgr.setHomeSettings channel v w.m_finger_manager
    trace := w.trace ++ [Call.setHomeSettings channel v] }

/-- One kind of settings for one channel (lines 174-179, 180-185, 186-191):
read the given flag; only if it is set read the value and call the setter.
`none` when an index is out of bounds. -/
def applyKind {M : Type} (given : List Bool) (values : List (List Float))
    (set : SVHChannel → List Float → SVHWrapper M → SVHWrapper M)
    (channel : Nat) (w : SVHWrapper M) : Option (SVHWrapper M) :=
  match given[channel]? with
  | none => none
  | some false => some w
  | some true =>
    match values[channel]? with
    | none => none
    | some v => some (set (static_cast_SVHChannel channel) v w)

/-- The body of the loop over the channels (lines 171-192). -/
def applyChannel {M : Type} (env : Env M) (s : Settings) (w : SVHWrapper M) (channel : Nat) :
    Option (SVHWrapper M) :=
  (applyKind s.current_settings_given s.current_settings (callSetCurrentSettings env) channel w
    ).bind fun w1 =>
  (applyKind s.position_settings_given s.position_settings (callSetPositionSettings env) channel w1
    ).bind fun w2 =>
  applyKind s.home_settings_given s.home_settings (callSetHomeSettings env) channel w2

/-- The loop `for (size_t channel = 0; channel < SVH_DIMENSION; ++channel)`
(line 170). -/
def applySettings {M : Type} (env : Env M) (s : Settings) (w : SVHWrapper M) :
    Option (SVHWrapper M) :=
  (List.range SVH_DIMENSION).foldlM (applyChannel env s) w

/-- `SVHWrapper::initControllerParameters` (lines 141-198). The result is how
the call ends and the wrapper at that point. -/
def initControllerParameters {M : Type} (env : Env M)
    (firmware_major_version firmware_minor_version : Nat) (w : SVHWrapper M) :
    Outcome Unit × SVHWrapper M :=
  match env.getParam "VERSIONS_PARAMETERS" with
  | .notFound => (.exited (-1), w)
  | .invalidName => (.exited (-1), w)
  | .found dynamic_parameters =>
    let w1 := { w with trace := w.trace ++
      [Call.DynamicParameter firmware_major_version firmware_minor_version] }
    match env.DynamicParameter firmware_major_version firmware_minor_version
        dynamic_parameters with
    | .error .InvalidNameException => (.returned (), w1)
    | .error e => (.thrown e, w1)
    | .ok settings =>
      match applySettings env settings w1 with
      | some w2 => (.returned (), w2)
      | none => (.outOfBounds, w1)

/-- `SVHWrapper::connect` (lines 207-253). -/
def connect {M : Type} (env : Env M) (w : SVHWrapper M) : Outcome Bool × SVHWrapper M :=
  let w := { w with m_channels_enabled := false }
  let w := { w with trace := w.trace ++ [Call.isConnected] }
  let w :=
    if env.mgr.isConnected w.m_finger_manager then
      { w with
        m_finger_manager := env.mgr.disconnect w.m_finger_manager
        trace := w.trace ++ [Call.disconnect] }
    else w
  let w :=
    if w.m_firmware_major_version == 0 && w.m_firmware_minor_version == 0 then
      let r := env.mgr.getFirmwareInfo w.m_serial_device_name w.m_connect_retry_count
        w.m_finger_manager
      { w with
        m_finger_manager := r.2
        trace := w.trace ++ [Call.getFirmwareInfo w.m_serial_device_name w.m_connect_retry_count]
        m_firmware_major_version := (r.1.version_major.val : Int)
        m_firmware_minor_version := (r.1.version_minor.val : Int) }
    else w
  if w.m_firmware_major_version == 0 && w.m_firmware_minor_version == 0 then
    (.returned false, w)
  else
    match initControllerParameters env (static_cast_uint16 w.m_firmware_major_version)
        (static_cast_uint16 w.m_firmware_minor_version) w with
    | (.exited code, w) => (.exited code, w)
    | (.thrown e, w) => (.thrown e, w)
    | (.outOfBounds, w) => (.outOfBounds, w)
    | (.returned _, w) =>
      let r := env.mgr.connect w.m_serial_device_name w.m_connect_retry_count w.m_finger_manager
      let w := { w with
        m_finger_manager := r.2
        trace := w.trace ++ [Call.connect w.m_serial_device_name w.m_connect_retry_count] }
      if !r.1 then (.returned false, w) else (.returned true, w)

/-- `schunk_svh_msgs::HomeWithChannels::Request`: the ids are `uint8_t`. -/
structure HomeWithChannelsRequest where
  channel_ids : List (Fin 256)

/-- `schunk_svh_msgs::HomeWithChannels::Response`. -/
structure HomeWithChannelsResponse where
  success : Bool

/-- One iteration of the loop of `homeNodesChannelIds` (line 309); the result
of `resetChannel` is dropped. -/
def resetOne {M : Type} (env : Env M) (w : SVHWrapper M) (id : Fin 256) : SVHWrapper M :=
  { w with
    m_finger_manager :=
      (env.mgr.resetChannel (static_cast_SVHChannel id.val) w.m_finger_manager).2
    trace := w.trace ++ [Call.resetChannel (static_cast_SVHChannel id.val)] }

/-- `SVHWrapper::homeNodesChannelIds` (lines 286-320). `isHomed` is only
called when `channels_enabled_before` is false (short-circuit `||`). -/
def homeNodesChannelIds {M : Type} (env : Env M) (req : HomeWithChannelsRequest)
    (w : SVHWrapper M) : Bool × HomeWithChannelsResponse × SVHWrapper M :=
  let channels_enabled_before := w.m_channels_enabled
  let w := if w.m_channels_enabled then { w with m_channels_enabled := false } else w
  let w := req.channel_ids.foldl (resetOne env) w
  let w :=
    if channels_enabled_before then { w with m_channels_enabled := true }
    else
      let w := { w with trace := w.trace ++ [Call.isHomed SVH_ALL] }
      if env.mgr.isHomed SVH_ALL w.m_finger_manager then { w with m_channels_enabled := true }
      else w
  let resp : HomeWithChannelsResponse := { success := true }
  (resp.success, resp, w)

/-- `SVHWrapper::setChannelForceLimit` (lines 341-353). -/
def setChannelForceLimit {M : Type} (env : Env M) (channel : Nat) (force_limit : Float)
    (w : SVHWrapper M) : Float × SVHWrapper M :=
  if w.m_channels_enabled then
    let r := env.mgr.setForceLimit (static_cast_SVHChannel channel) force_limit w.m_finger_manager
    (r.1, { w with
      m_finger_manager := r.2
      trace := w.trace ++ [Call.setForceLimit (static_cast_SVHChannel channel) force_limit] })
  else
    (floatOfBool false, w)

/-- `schunk_svh_msgs::SetChannelForceLimit::Request`; `channel_id` is the
value the request carries, as converted to the `size_t` parameter of
`setChannelForceLimit`. -/
structure SetChannelForceLimitRequest where
  channel_id : Nat
  force_limit : Float

/-- `schunk_svh_msgs::SetChannelForceLimit::Response`. -/
structure SetChannelForceLimitResponse where
  force_limit : Float

/-- `SVHWrapper::setForceLimitById` (lines 333-338). -/
def setForceLimitById {M : Type} (env : Env M) (req : SetChannelForceLimitRequest)
    (w : SVHWrapper M) : Bool × SetChannelForceLimitResponse × SVHWrapper M :=
  let r := setChannelForceLimit env req.channel_id req.force_limit w
  (true, { force_limit := r.1 }, r.2)

/-! ## Vocabulary for the statements -/

/-- The six containers of a `Settings` value all have `SVH_DIMENSION` entries. -/
def WellSized (s : Settings) : Prop :=
  s.position_settings.length = SVH_DIMENSION ∧
  s.position_settings_given.length = SVH_DIMENSION ∧
  s.current_settings.length = SVH_DIMENSION ∧
  s.current_settings_given.length = SVH_DIMENSION ∧
  s.home_settings.length = SVH_DIMENSION ∧
  s.home_settings_given.length = SVH_DIMENSION

instance (s : Settings) : Decidable (WellSized s) := by
  unfold WellSized; infer_instance

/-- The setter calls one kind of settings contributes for one channel: one
call if the flag of that channel is set, none otherwise. -/
def kindCalls (given : List Bool) (values : List (List Float))
    (mk : SVHChannel → List Float → Call) (channel : Nat) : List Call :=
  if given.getD channel false then
    [mk (static_cast_SVHChannel channel) (values.getD channel [])]
  else []

/-- The setter calls of one loop iteration, in the order current, position,
home. -/
def channelCalls (s : Settings) (channel : Nat) : List Call :=
  kindCalls s.current_settings_given s.current_settings Call.setCurrentSettings channel ++
  kindCalls s.position_settings_given s.position_settings Call.setPositionSettings channel ++
  kindCalls s.home_settings_given s.home_settings Call.setHomeSettings channel

/-- What a logged call does to the state of the finger manager: the state
the called method leaves; queries and the `DynamicParameter` constructor leave
it as it is. -/
def runCall {M : Type} (mgr : SVHFingerManager M) (m : M) : Call → M
  | .isConnected => m
  | .disconnect => mgr.disconnect m
  | .getFirmwareInfo dev retry_count => (mgr.getFirmwareInfo dev retry_count m).2
  | .connect dev retry_count => (mgr.connect dev retry_count m).2
  | .resetChannel channel => (mgr.resetChannel channel m).2
  | .isHomed _ => m
  | .setForceLimit channel force_limit => (mgr.setForceLimit channel force_limit m).2
  | .setCurrentSettings channel v => mgr.setCurrentSettings channel v m
  | .setPositionSettings channel v => mgr.setPositionSettings channel v m
  | .setHomeSettings channel v => mgr.setHomeSettings channel v m
  | .DynamicParameter _ _ => m

/-- What a loop iteration preserves, what it appends to the trace, and that
the manager state it leaves is the one the appended calls produce. -/
def StepsTo {M : Type} (mgr : SVHFingerManager M) (w w2 : SVHWrapper M)
    (calls : List Call) : Prop :=
  w2.trace = w.trace ++ calls ∧
  w2.m_finger_manager = calls.foldl (runCall mgr) w.m_finger_manager ∧
  w2.m_channels_enabled = w.m_channels_enabled ∧
  w2.m_firmware_major_version = w.m_firmware_major_version ∧
  w2.m_firmware_minor_version = w.m_firmware_minor_version ∧
  w2.m_serial_device_name = w.m_serial_device_name ∧
  w2.m_connect_retry_count = w.m_connect_retry_count

/-! ## A concrete environment, used to evaluate the model -/

/-- A finger manager whose state counts the state-changing calls made on it.
It reports firmware 1.5, is connected, resets and connects successfully,
reports all channels homed, and returns the force limit it was given. -/
def countingManager : SVHFingerManager Nat where
  isConnected := fun _ => true
  disconnect := fun m => m + 1
  getFirmwareInfo := fun _ _ m => ({ version_major := 1, version_minor := 5 }, m + 1)
  connect := fun _ _ m => (true, m + 1)
  resetChannel := fun _ m => (true, m + 1)
  isHomed := fun _ _ => true
  setForceLimit := fun _ f m => (f, m + 1)
  setCurrentSettings := fun _ _ m => m + 1
  setPositionSettings := fun _ _ m => m + 1
  setHomeSettings := fun _ _ m => m + 1

/-- Settings as left by a constructor that found current settings for
channel 3 only. -/
def settingsChannel3 : Settings :=
  { Settings.Settings with
    current_settings := [[], [], [], [1.0, 2.0, 0.5], [], [], [], [], []]
    current_settings_given := [false, false, false, true, false, false, false, false, false] }

/-- The counting manager, a parameter server that has the section, and a
constructor that yields `settingsChannel3` for every version. -/
def env3 : Env Nat where
  mgr := countingManager
  getParam := fun _ => .found (.array [])
  DynamicParameter := fun _ _ _ => .ok settingsChannel3

/-- As `env3`, with a parameter server that lacks the section. -/
def envNoSection : Env Nat := { env3 with getParam := fun _ => .notFound }

/-- As `env3`, with a constructor that throws `ros::InvalidNameException`. -/
def envMalformed : Env Nat :=
  { env3 with DynamicParameter := fun _ _ _ => .error .InvalidNameException }

/-- A wrapper as its constructor leaves it before `connect()`: channels
disabled, no forced firmware version, nothing called yet. -/
def wrapper0 : SVHWrapper Nat where
  m_channels_enabled := false
  m_firmware_major_version := 0
  m_firmware_minor_version := 0
  m_serial_device_name := "/dev/ttyUSB0"
  m_connect_retry_count := 3
  m_finger_manager := 0
  trace := []

/-- A finger manager whose state holds, per channel, whether the channel is
homed. `resetChannel` homes the channel (all channels for `SVH_ALL`) and
succeeds; `isHomed(SVH_ALL)` holds when every channel is homed. -/
def homingManager : SVHFingerManager (List Bool) where
  isConnected := fun _ => true
  disconnect := fun m => m
  getFirmwareInfo := fun _ _ m => ({ version_major := 1, version_minor := 5 }, m)
  connect := fun _ _ m => (true, m)
  resetChannel := fun channel m =>
    if channel = SVH_ALL then (true, m.map fun _ => true) else (true, m.set channel.toNat true)
  isHomed := fun channel m =>
    if channel = SVH_ALL then m.all id else m.getD channel.toNat false
  setForceLimit := fun _ f m => (f, m)
  setCurrentSettings := fun _ _ m => m
  setPositionSettings := fun _ _ m => m
  setHomeSettings := fun _ _ m => m

/-- The homing manager with the parameter server and constructor of `env3`. -/
def envHoming : Env (List Bool) where
  mgr := homingManager
  getParam := fun _ => .found (.array [])
  DynamicParameter := fun _ _ _ => .ok settingsChannel3

/-- A connected wrapper with the channels-enabled flag false, on a hand of
which every channel but channel 2 is homed. -/
def wrapperChannel2Unhomed : SVHWrapper (List Bool) where
  m_channels_enabled := false
  m_firmware_major_version := 1
  m_firmware_minor_version := 5
  m_serial_device_name := "/dev/ttyUSB0"
  m_connect_retry_count := 3
  m_finger_manager := [true, true, false, true, true, true, true, true, true]
  trace := []

/-- The wrapper `wrapper0` with the channels enabled. -/
def wrapperEnabled : SVHWrapper Nat := { wrapper0 with m_channels_enabled := true }

/-- The wrapper `wrapper0` with the launch parameters `use_major_version`
65536 and `use_minor_version` 0. -/
def wrapperForced65536 : SVHWrapper Nat := { wrapper0 with m_firmware_major_version := 65536 }

/-! ## Lemmas on the loop of initControllerParameters -/

theorem static_cast_SVHChannel_small (n : Nat) (h : n < 2 ^ 31) :
    static_cast_SVHChannel n = (n : Int) := by
  unfold static_cast_SVHChannel
  have h1 : n % 2 ^ 32 = n := Nat.mod_eq_of_lt (by omega)
  rw [h1, if_pos h]

theorem applyKind_eq_some {M : Type} (given : List Bool) (values : List (List Float))
    (set : SVHChannel → List Float → SVHWrapper M → SVHWrapper M)
    (channel : Nat) (w : SVHWrapper M)
    (hg : channel < given.length) (hv : channel < values.length) :
    applyKind given values set channel w =
      some (if given.getD channel false then
        set (static_cast_SVHChannel channel) (values.getD channel []) w else w) := by
  unfold applyKind
  simp only [List.getD_eq_getElem?_getD, List.getElem?_eq_getElem hg,
    List.getElem?_eq_getElem hv, Option.getD_some]
  cases given[channel] <;> simp

theorem applyKind_steps {M : Type} (mgr : SVHFingerManager M) (given : List Bool)
    (values : List (List Float))
    (mk : SVHChannel → List Float → Call)
    (set : SVHChannel → List Float → SVHWrapper M → SVHWrapper M)
    (hset : ∀ ch v w, StepsTo mgr w (set ch v w) [mk ch v])
    (channel : Nat) (w : SVHWrapper M)
    (hg : channel < given.length) (hv : channel < values.length) :
    ∃ w2, applyKind given values set channel w = some w2 ∧
      StepsTo mgr w w2 (kindCalls given values mk channel) := by
  refine ⟨_, applyKind_eq_some given values set channel w hg hv, ?_⟩
  unfold kindCalls
  cases given.getD channel false
  · simp [StepsTo]
  · simpa using hset _ _ w

theorem StepsTo.trans {M : Type} {mgr : SVHFingerManager M} {w1 w2 w3 : SVHWrapper M}
    {c1 c2 : List Call}
    (h1 : StepsTo mgr w1 w2 c1) (h2 : StepsTo mgr w2 w3 c2) :
    StepsTo mgr w1 w3 (c1 ++ c2) := by
  obtain ⟨a1, am, a2, a3, a4, a5, a6⟩ := h1
  obtain ⟨b1, bm, b2, b3, b4, b5, b6⟩ := h2
  refine ⟨?_, ?_, b2.trans a2, b3.trans a3, b4.trans a4, b5.trans a5, b6.trans a6⟩
  · rw [b1, a1, List.append_assoc]
  · rw [bm, am, List.foldl_append]

theorem applyChannel_steps {M : Type} (env : Env M) (s : Settings) (hs : WellSized s)
    (w : SVHWrapper M) (channel : Nat) (hc : channel < SVH_DIMENSION) :
    ∃ w2, applyChannel env s w channel = some w2 ∧
      StepsTo env.mgr w w2 (channelCalls s channel) := by
  obtain ⟨h1, h2, h3, h4, h5, h6⟩ := hs
  obtain ⟨wa, ea, sa⟩ := applyKind_steps env.mgr s.current_settings_given s.current_settings
    Call.setCurrentSettings (callSetCurrentSettings env)
    (fun ch v w => by simp [StepsTo, callSetCurrentSettings, runCall]) channel w
    (by omega) (by omega)
  obtain ⟨wb, eb, sb⟩ := applyKind_steps env.mgr s.position_settings_given s.position_settings
    Call.setPositionSettings (callSetPositionSettings env)
    (fun ch v w => by simp [StepsTo, callSetPositionSettings, runCall]) channel wa
    (by omega) (by omega)
  obtain ⟨wc, ec, sc⟩ := applyKind_steps env.mgr s.home_settings_given s.home_settings
    Call.setHomeSettings (callSetHomeSettings env)
    (fun ch v w => by simp [StepsTo, callSetHomeSettings, runCall]) channel wb
    (by omega) (by omega)
  refine ⟨wc, ?_, ?_⟩
  · unfold applyChannel
    rw [ea, Option.bind, eb]
    simpa [Option.bind] using ec
  · unfold channelCalls
    exact (sa.trans sb).trans sc

theorem foldlM_applyChannel_steps {M : Type} (env : Env M) (s : Settings) (hs : WellSized s)
    (l : List Nat) (hl : ∀ c ∈ l, c < SVH_DIMENSION) (w : SVHWrapper M) :
    ∃ w2, l.foldlM (applyChannel env s) w = some w2 ∧
      StepsTo env.mgr w w2 (l.flatMap (channelCalls s)) := by
  induction l generalizing w with
  | nil => exact ⟨w, rfl, by simp [StepsTo]⟩
  | cons c l ih =>
    obtain ⟨w1, e1, s1⟩ := applyChannel_steps env s hs w c (hl c (List.mem_cons_self _ _))
    obtain ⟨w2, e2, s2⟩ := ih (fun d hd => hl d (List.mem_cons_of_mem _ hd)) w1
    refine ⟨w2, ?_, ?_⟩
    · rw [List.foldlM_cons, e1]
      exact e2
    · rw [List.flatMap_cons]
      exact s1.trans s2

theorem applySettings_steps {M : Type} (env : Env M) (s : Settings) (hs : WellSized s)
    (w : SVHWrapper M) :
    ∃ w2, applySettings env s w = some w2 ∧
      StepsTo env.mgr w w2 ((List.range SVH_DIMENSION).flatMap (channelCalls s)) :=
  foldlM_applyChannel_steps env s hs _ (fun _ hc => List.mem_range.mp hc) w

theorem kindCalls_mem_iff (given : List Bool) (values : List (List Float))
    (mk : SVHChannel → List Float → Call) (channel : Nat) (x : Call) :
    x ∈ kindCalls given values mk channel ↔
      given[channel]? = some true ∧
      x = mk (static_cast_SVHChannel channel) (values.getD channel []) := by
  unfold kindCalls
  rw [List.getD_eq_getElem?_getD]
  rcases hgc : given[channel]? with _ | b
  · simp
  · cases b <;> simp

/-! ## C1: the force limit gate -/

/-- C1: in every state and for every channel and force limit,
`setChannelForceLimit` with the channels-enabled flag false returns the
failure value (`false` converted to `float`, 0.0) and leaves the wrapper, the
manager state and the trace of manager calls as they were (`setForceLimit` is
not invoked); with the flag true it appends exactly one call
`setForceLimit(channel, force_limit)` to the trace, the manager state is the
one that call leaves, and the value returned is the call's result. -/
theorem setChannelForceLimit_gate {M : Type} (env : Env M) (channel : Nat)
    (force_limit : Float) (w : SVHWrapper M) :
    (w.m_channels_enabled = false →
      setChannelForceLimit env channel force_limit w = (floatOfBool false, w) ∧
      floatOfBool false = (0.0 : Float)) ∧
    (w.m_channels_enabled = true →
      (setChannelForceLimit env channel force_limit w).1 =
        (env.mgr.setForceLimit (static_cast_SVHChannel channel) force_limit
          w.m_finger_manager).1 ∧
      (setChannelForceLimit env channel force_limit w).2.m_finger_manager =
        (env.mgr.setForceLimit (static_cast_SVHChannel channel) force_limit
          w.m_finger_manager).2 ∧
      (setChannelForceLimit env channel force_limit w).2.trace =
        w.trace ++ [Call.setForceLimit (static_cast_SVHChannel channel) force_limit] ∧
      (setChannelForceLimit env channel force_limit w).2.m_channels_enabled = true ∧
      (channel < 2 ^ 31 → static_cast_SVHChannel channel = (channel : Int))) := by
  constructor
  · intro h
    exact ⟨by simp [setChannelForceLimit, h], rfl⟩
  · intro h
    refine ⟨by simp [setChannelForceLimit, h], by simp [setChannelForceLimit, h],
      by simp [setChannelForceLimit, h], by simp [setChannelForceLimit, h],
      static_cast_SVHChannel_small channel⟩

/-- Witness for C1: channel 3 and force limit 0.5, once with the channels
disabled and once with the channels enabled. -/
theorem setChannelForceLimit_gate_witness :
    setChannelForceLimit env3 3 0.5 wrapper0 = (floatOfBool false, wrapper0) ∧
    (setChannelForceLimit env3 3 0.5 wrapperEnabled).2.trace =
      wrapperEnabled.trace ++ [Call.setForceLimit (static_cast_SVHChannel 3) 0.5] :=
  ⟨((setChannelForceLimit_gate env3 3 0.5 wrapper0).1 rfl).1,
   ((setChannelForceLimit_gate env3 3 0.5 wrapperEnabled).2 rfl).2.2.1⟩

/-! ## C2: only given settings are applied -/

/-- C2: when the section is found and the `DynamicParameter` constructor
leaves a `Settings` value whose containers have `SVH_DIMENSION` entries,
`initControllerParameters` returns, and the calls `added` it makes after the
construction are exactly these: for the channels 0, 1, ... in turn, the
setters of the kinds whose given flag is set for that channel, in the order
current, position, home, each with the stored value of that channel. They are
really made on the finger manager: the manager state afterwards is the state
these calls produce, one after the other, from the state before. Nothing but
settings setters is called, and for every channel value `ch` and every value
`v` a call `setCurrentSettings(ch, v)` is made if and only if `ch` is a
channel `c < SVH_DIMENSION` with `current_settings_given[c]` true and `v` is
`current_settings[c]`; likewise for `setPositionSettings` and
`setHomeSettings`. So where a flag is false no setter of that kind is called
for that channel, with no value at all, and no setter is ever called for a
channel outside `[0, SVH_DIMENSION)`. -/
theorem initControllerParameters_applies_exactly_given {M : Type} (env : Env M)
    (major minor : Nat) (w : SVHWrapper M) (p : XmlRpcValue) (s : Settings)
    (hget : env.getParam "VERSIONS_PARAMETERS" = .found p)
    (hctor : env.DynamicParameter major minor p = .ok s)
    (hsize : WellSized s) :
    ∃ added : List Call,
      (initControllerParameters env major minor w).1 = .returned () ∧
      (initControllerParameters env major minor w).2.trace =
        w.trace ++ Call.DynamicParameter major minor :: added ∧
      (initControllerParameters env major minor w).2.m_finger_manager =
        added.foldl (runCall env.mgr) w.m_finger_manager ∧
      (initControllerParameters env major minor w).2.m_channels_enabled =
        w.m_channels_enabled ∧
      added = (List.range SVH_DIMENSION).flatMap (channelCalls s) ∧
      (∀ call ∈ added, call.isSettingsSetter = true) ∧
      ∀ (ch : SVHChannel) (v : List Float),
        (Call.setCurrentSettings ch v ∈ added ↔
          ∃ c : Nat, c < SVH_DIMENSION ∧ ch = (c : Int) ∧
            s.current_settings_given[c]? = some true ∧ s.current_settings[c]? = some v) ∧
        (Call.setPositionSettings ch v ∈ added ↔
          ∃ c : Nat, c < SVH_DIMENSION ∧ ch = (c : Int) ∧
            s.position_settings_given[c]? = some true ∧ s.position_settings[c]? = some v) ∧
        (Call.setHomeSettings ch v ∈ added ↔
          ∃ c : Nat, c < SVH_DIMENSION ∧ ch = (c : Int) ∧
            s.home_settings_given[c]? = some true ∧ s.home_settings[c]? = some v) := by
  obtain ⟨w2, e2, st⟩ := applySettings_steps env s hsize
    { w with trace := w.trace ++ [Call.DynamicParameter major minor] }
  obtain ⟨sttrace, stmgr, stflag, _⟩ := st
  have cast_small : ∀ d : Nat, d < SVH_DIMENSION → static_cast_SVHChannel d = (d : Int) :=
    fun d hd => static_cast_SVHChannel_small d (by unfold SVH_DIMENSION at hd; omega)
  obtain ⟨h1, h2, h3, h4, h5, h6⟩ := hsize
  have getD_some : ∀ (l : List (List Float)) (d : Nat) (v : List Float),
      l.length = SVH_DIMENSION → d < SVH_DIMENSION → (v = l.getD d [] ↔ l[d]? = some v) := by
    intro l d v hlen hd
    rw [List.getD_eq_getElem?_getD, List.getElem?_eq_getElem (by omega)]
    simp [eq_comm]
  refine ⟨(List.range SVH_DIMENSION).flatMap (channelCalls s), ?_, ?_, ?_, ?_, rfl, ?_, ?_⟩
  · simp only [initControllerParameters, hget, hctor, e2]
  · simp only [initControllerParameters, hget, hctor, e2]
    rw [sttrace]
    simp
  · simp only [initControllerParameters, hget, hctor, e2]
    exact stmgr
  · simp only [initControllerParameters, hget, hctor, e2]
    exact stflag
  · intro call hcall
    simp only [List.mem_flatMap, List.mem_range, channelCalls, List.mem_append,
      kindCalls_mem_iff] at hcall
    obtain ⟨d, _, (⟨_, hx⟩ | ⟨_, hx⟩) | ⟨_, hx⟩⟩ := hcall <;> rw [hx] <;> rfl
  · intro ch v
    simp only [List.mem_flatMap, List.mem_range, channelCalls, List.mem_append,
      kindCalls_mem_iff]
    refine ⟨?_, ?_, ?_⟩
    · constructor
      · rintro ⟨d, hd, (⟨hg, hx⟩ | ⟨_, hx⟩) | ⟨_, hx⟩⟩
        · injection hx with hch hv
          exact ⟨d, hd, by rw [hch, cast_small d hd], hg, (getD_some _ d v h3 hd).mp hv⟩
        · cases hx
        · cases hx
      · rintro ⟨c, hc, hch, hg, hv⟩
        refine ⟨c, hc, Or.inl (Or.inl ⟨hg, ?_⟩)⟩
        rw [cast_small c hc, hch, (getD_some _ c v h3 hc).mpr hv]
    · constructor
      · rintro ⟨d, hd, (⟨_, hx⟩ | ⟨hg, hx⟩) | ⟨_, hx⟩⟩
        · cases hx
        · injection hx with hch hv
          exact ⟨d, hd, by rw [hch, cast_small d hd], hg, (getD_some _ d v h1 hd).mp hv⟩
        · cases hx
      · rintro ⟨c, hc, hch, hg, hv⟩
        refine ⟨c, hc, Or.inl (Or.inr ⟨hg, ?_⟩)⟩
        rw [cast_small c hc, hch, (getD_some _ c v h1 hc).mpr hv]
    · constructor
      · rintro ⟨d, hd, (⟨_, hx⟩ | ⟨_, hx⟩) | ⟨hg, hx⟩⟩
        · cases hx
        · cases hx
        · injection hx with hch hv
          exact ⟨d, hd, by rw [hch, cast_small d hd], hg, (getD_some _ d v h5 hd).mp hv⟩
      · rintro ⟨c, hc, hch, hg, hv⟩
        refine ⟨c, hc, Or.inr ⟨hg, ?_⟩⟩
        rw [cast_small c hc, hch, (getD_some _ c v h5 hc).mpr hv]

/-- Witness for C2: the constructor found current settings for channel 3 only.
The calls made are the construction and the single call
`setCurrentSettings(3, [1.0, 2.0, 0.5])`, the counting manager has seen exactly
one state-changing call, and no home settings are set for the pseudo channel
`SVH_ALL`. -/
theorem initControllerParameters_applies_exactly_given_witness :
    WellSized settingsChannel3 ∧
    (initControllerParameters env3 1 5 wrapper0).2.trace =
      [Call.DynamicParameter 1 5, Call.setCurrentSettings 3 [1.0, 2.0, 0.5]] ∧
    (initControllerParameters env3 1 5 wrapper0).2.m_finger_manager = 1 ∧
    ∀ added : List Call,
      (initControllerParameters env3 1 5 wrapper0).2.trace =
        wrapper0.trace ++ Call.DynamicParameter 1 5 :: added →
      Call.setHomeSettings SVH_ALL [] ∉ added := by
  obtain ⟨added, _, htrace, hmgr, _, hadded, _, hiff⟩ :=
    initControllerParameters_applies_exactly_given env3 1 5
      wrapper0 (.array []) settingsChannel3 rfl rfl (by decide)
  refine ⟨by decide, ?_, ?_, ?_⟩
  · rw [htrace, hadded]
    rfl
  · rw [hmgr, hadded]
    rfl
  · intro added2 h2 hmem
    rw [htrace] at h2
    have heq : added = added2 := by
      have := List.append_cancel_left h2
      injection this
    rw [← heq] at hmem
    obtain ⟨c, _, hch, _⟩ := ((hiff SVH_ALL []).2.2).mp hmem
    have hneg : (SVH_ALL : Int) < 0 := by decide
    rw [hch] at hneg
    exact absurd (Int.ofNat_nonneg c) (not_le.mpr hneg)

/-! ## C3: applying settings does not depend on the channels-enabled flag -/

theorem applyKind_setRosControlEnable {M : Type} (given : List Bool)
    (values : List (List Float))
    (set : SVHChannel → List Float → SVHWrapper M → SVHWrapper M) (b : Bool)
    (hset : ∀ ch v w, set ch v (setRosControlEnable b w) = setRosControlEnable b (set ch v w))
    (channel : Nat) (w : SVHWrapper M) :
    applyKind given values set channel (setRosControlEnable b w) =
      (applyKind given values set channel w).map (setRosControlEnable b) := by
  unfold applyKind
  rcases given[channel]? with _ | g
  · rfl
  · cases g
    · rfl
    · rcases values[channel]? with _ | v
      · rfl
      · simp [hset]

theorem applyChannel_setRosControlEnable {M : Type} (env : Env M) (s : Settings) (b : Bool)
    (w : SVHWrapper M) (channel : Nat) :
    applyChannel env s (setRosControlEnable b w) channel =
      (applyChannel env s w channel).map (setRosControlEnable b) := by
  unfold applyChannel
  rw [applyKind_setRosControlEnable _ _ (callSetCurrentSettings env) b (fun _ _ _ => rfl)]
  rcases applyKind s.current_settings_given s.current_settings (callSetCurrentSettings env)
    channel w with _ | w1
  · rfl
  · simp only [Option.map_some', Option.some_bind]
    rw [applyKind_setRosControlEnable _ _ (callSetPositionSettings env) b (fun _ _ _ => rfl)]
    rcases applyKind s.position_settings_given s.position_settings
      (callSetPositionSettings env) channel w1 with _ | w2
    · rfl
    · simp only [Option.map_some', Option.some_bind]
      exact applyKind_setRosControlEnable _ _ (callSetHomeSettings env) b (fun _ _ _ => rfl)
        channel w2

theorem foldlM_applyChannel_setRosControlEnable {M : Type} (env : Env M) (s : Settings)
    (b : Bool) (l : List Nat) (w : SVHWrapper M) :
    l.foldlM (applyChannel env s) (setRosControlEnable b w) =
      (l.foldlM (applyChannel env s) w).map (setRosControlEnable b) := by
  induction l generalizing w with
  | nil => rfl
  | cons c l ih =>
    rw [List.foldlM_cons, List.foldlM_cons, applyChannel_setRosControlEnable]
    rcases applyChannel env s w c with _ | w1
    · rfl
    · exact ih w1

/-- C3 (as amended): `initControllerParameters` does not read the
channels-enabled flag. Started with the flag forced to any value `b`, it ends
the same way, makes the same calls and leaves the same manager state as when
started from `w`, the only difference being the flag, which it never writes.
Its result carries no boolean (it is `void`). -/
theorem initControllerParameters_ignores_flag {M : Type} (env : Env M) (major minor : Nat)
    (w : SVHWrapper M) (b : Bool) :
    initControllerParameters env major minor (setRosControlEnable b w) =
      ((initControllerParameters env major minor w).1,
        setRosControlEnable b (initControllerParameters env major minor w).2) ∧
    (initControllerParameters env major minor w).2.m_channels_enabled =
      w.m_channels_enabled := by
  have key : ∀ (b : Bool) (w : SVHWrapper M),
      initControllerParameters env major minor (setRosControlEnable b w) =
      ((initControllerParameters env major minor w).1,
        setRosControlEnable b (initControllerParameters env major minor w).2) := by
    intro b w
    unfold initControllerParameters
    rcases env.getParam "VERSIONS_PARAMETERS" with p | _ | _
    · simp only
      rcases env.DynamicParameter major minor p with e | st
      · cases e <;> rfl
      · simp only
        have h := foldlM_applyChannel_setRosControlEnable env st b (List.range SVH_DIMENSION)
          { w with trace := w.trace ++ [Call.DynamicParameter major minor] }
        have h2 : applySettings env st
            { setRosControlEnable b w with
              trace := (setRosControlEnable b w).trace ++ [Call.DynamicParameter major minor] } =
            (applySettings env st
              { w with trace := w.trace ++ [Call.DynamicParameter major minor] }).map
              (setRosControlEnable b) := h
        rw [h2]
        rcases applySettings env st
          { w with trace := w.trace ++ [Call.DynamicParameter major minor] } with _ | w2
        · rfl
        · rfl
    · rfl
    · rfl
  refine ⟨key b w, ?_⟩
  have h := key w.m_channels_enabled w
  have hw : setRosControlEnable w.m_channels_enabled w = w := rfl
  rw [hw] at h
  have h2 := congrArg (fun r => r.2.m_channels_enabled) h
  simp only [setRosControlEnable] at h2
  exact h2

/-- Counterexample to C3: with the flag false, `initControllerParameters`
calls a settings setter and changes the manager state; `connect()`, started
from the wrapper the constructor leaves, does so as well. -/
theorem settings_applied_while_disabled :
    wrapper0.m_channels_enabled = false ∧
    (initControllerParameters env3 1 5 wrapper0).2.trace.any Call.isSettingsSetter = true ∧
    (initControllerParameters env3 1 5 wrapper0).2.m_finger_manager ≠
      wrapper0.m_finger_manager ∧
    (connect env3 wrapper0).2.trace.any Call.isSettingsSetter = true := by
  decide

/-! ## C4: a failing constructor applies nothing -/

/-- C4: if constructing the `DynamicParameter` from the configuration found
on the parameter server fails with an exception, then
`initControllerParameters` leaves the manager state as it was and none of the
calls it makes is a settings setter. -/
theorem initControllerParameters_malformed_applies_nothing {M : Type} (env : Env M)
    (major minor : Nat) (w : SVHWrapper M)
    (hfail : ∀ p, env.getParam "VERSIONS_PARAMETERS" = .found p →
      ∃ e, env.DynamicParameter major minor p = .error e) :
    (initControllerParameters env major minor w).2.m_finger_manager = w.m_finger_manager ∧
    ∃ added : List Call,
      (initControllerParameters env major minor w).2.trace = w.trace ++ added ∧
      added.any Call.isSettingsSetter = false := by
  unfold initControllerParameters
  rcases hget : env.getParam "VERSIONS_PARAMETERS" with p | _ | _
  · obtain ⟨e, he⟩ := hfail p hget
    simp only [he]
    cases e
    · exact ⟨rfl, [Call.DynamicParameter major minor], rfl, rfl⟩
    · exact ⟨rfl, [Call.DynamicParameter major minor], rfl, rfl⟩
  · exact ⟨rfl, [], by simp, rfl⟩
  · exact ⟨rfl, [], by simp, rfl⟩

/-- Witness for C4: a constructor that throws `ros::InvalidNameException`. -/
theorem initControllerParameters_malformed_applies_nothing_witness :
    (initControllerParameters envMalformed 1 5 wrapper0).2.m_finger_manager =
      wrapper0.m_finger_manager ∧
    ∃ added : List Call,
      (initControllerParameters envMalformed 1 5 wrapper0).2.trace = wrapper0.trace ++ added ∧
      added.any Call.isSettingsSetter = false :=
  initControllerParameters_malformed_applies_nothing envMalformed 1 5 wrapper0
    (fun _ _ => ⟨.InvalidNameException, rfl⟩)

/-! ## C5: a missing section is fatal -/

/-- C5: when `getParam("VERSIONS_PARAMETERS")` returns false or throws
`ros::InvalidNameException`, `initControllerParameters` ends in `exit(-1)` for
every firmware version, and the wrapper is as before the call: no
`DynamicParameter` was constructed and no manager method was called. -/
theorem initControllerParameters_missing_section_exits {M : Type} (env : Env M)
    (major minor : Nat) (w : SVHWrapper M)
    (hget : env.getParam "VERSIONS_PARAMETERS" = .notFound ∨
      env.getParam "VERSIONS_PARAMETERS" = .invalidName) :
    initControllerParameters env major minor w = (.exited (-1), w) := by
  unfold initControllerParameters
  rcases hget with h | h <;> rw [h]

/-- Witness for C5: the parameter server lacks the section. -/
theorem initControllerParameters_missing_section_exits_witness :
    initControllerParameters envNoSection 1 5 wrapper0 = (.exited (-1), wrapper0) :=
  initControllerParameters_missing_section_exits envNoSection 1 5 wrapper0 (Or.inl rfl)

/-! ## C6: the channel index of a force limit request is forwarded as it is -/

/-- Counterexample to C6: with the channels enabled, a request for channel id
9 makes the wrapper call `setForceLimit` with channel 9, which is not in
`[0, SVH_DIMENSION)`. -/
theorem setForceLimitById_forwards_channel_9 :
    wrapperEnabled.m_channels_enabled = true ∧
    (setForceLimitById env3 { channel_id := 9, force_limit := 0.5 } wrapperEnabled
      ).2.2.trace.filterMap Call.forceLimitChannel = [9] ∧
    ¬ ((9 : Int) < SVH_DIMENSION) := by
  decide

/-- C6 (as amended): `setForceLimitById` does not check the channel id. It
always returns true. With the channels-enabled flag true it calls
`setForceLimit` exactly once, with the request's channel id cast to
`SVHChannel` and the request's force limit, whatever the id is, and answers
with the call's result; with the flag false it calls nothing and answers 0.0.
The index that reaches the manager is in `[0, SVH_DIMENSION)` whenever the
request's channel id is. -/
theorem setForceLimitById_forwards_unchecked {M : Type} (env : Env M)
    (req : SetChannelForceLimitRequest) (w : SVHWrapper M) :
    (setForceLimitById env req w).1 = true ∧
    (w.m_channels_enabled = true →
      (setForceLimitById env req w).2.2.trace =
        w.trace ++ [Call.setForceLimit (static_cast_SVHChannel req.channel_id) req.force_limit] ∧
      (setForceLimitById env req w).2.1.force_limit =
        (env.mgr.setForceLimit (static_cast_SVHChannel req.channel_id) req.force_limit
          w.m_finger_manager).1) ∧
    (w.m_channels_enabled = false →
      (setForceLimitById env req w).2.2 = w ∧
      (setForceLimitById env req w).2.1.force_limit = floatOfBool false) ∧
    (req.channel_id < SVH_DIMENSION →
      0 ≤ static_cast_SVHChannel req.channel_id ∧
      static_cast_SVHChannel req.channel_id < SVH_DIMENSION) := by
  refine ⟨rfl, ?_, ?_, ?_⟩
  · intro h
    simp [setForceLimitById, setChannelForceLimit, h]
  · intro h
    simp [setForceLimitById, setChannelForceLimit, h]
  · intro h
    rw [static_cast_SVHChannel_small req.channel_id (by unfold SVH_DIMENSION at h; omega)]
    exact ⟨Int.ofNat_nonneg _, Int.ofNat_lt.mpr h⟩

/-- Witness for C6 (as amended): channel id 200 with the channels enabled,
channel id 4 with the channels disabled. -/
theorem setForceLimitById_forwards_unchecked_witness :
    (setForceLimitById env3 { channel_id := 200, force_limit := 0.5 } wrapperEnabled).2.2.trace =
      wrapperEnabled.trace ++ [Call.setForceLimit (static_cast_SVHChannel 200) 0.5] ∧
    (setForceLimitById env3 { channel_id := 4, force_limit := 0.5 } wrapper0).2.2 = wrapper0 ∧
    static_cast_SVHChannel 4 < SVH_DIMENSION :=
  ⟨((setForceLimitById_forwards_unchecked env3 { channel_id := 200, force_limit := 0.5 }
      wrapperEnabled).2.1 rfl).1,
   ((setForceLimitById_forwards_unchecked env3 { channel_id := 4, force_limit := 0.5 }
      wrapper0).2.2.1 rfl).1,
   ((setForceLimitById_forwards_unchecked env3 { channel_id := 4, force_limit := 0.5 }
      wrapper0).2.2.2 (by decide)).2⟩

/-! ## C7: the containers of a fresh Settings value -/

/-- C7: the value built by the `Settings()` constructor has exactly
`SVH_DIMENSION` entries in each of its six containers, at every index below
`SVH_DIMENSION` the three given flags are present and false and the three
settings vectors are present (and empty), `major_version` and `minor_version`
are 0; so the loop of `initControllerParameters` over it reads in bounds and
calls nothing. -/
theorem Settings_constructor_cardinality :
    WellSized Settings.Settings ∧
    (∀ channel : Fin SVH_DIMENSION,
      Settings.Settings.position_settings_given[channel.val]? = some false ∧
      Settings.Settings.current_settings_given[channel.val]? = some false ∧
      Settings.Settings.home_settings_given[channel.val]? = some false ∧
      Settings.Settings.position_settings[channel.val]? = some [] ∧
      Settings.Settings.current_settings[channel.val]? = some [] ∧
      Settings.Settings.home_settings[channel.val]? = some []) ∧
    Settings.Settings.major_version = 0 ∧
    Settings.Settings.minor_version = 0 ∧
    (∀ (M : Type) (env : Env M) (w : SVHWrapper M),
      applySettings env Settings.Settings w = some w) := by
  refine ⟨by decide, ?_, rfl, rfl, fun _ _ _ => rfl⟩
  rintro ⟨c, hc⟩
  have h : c < 9 := hc
  interval_cases c <;> exact ⟨rfl, rfl, rfl, rfl, rfl, rfl⟩

/-! ## C8: homing all channels decides the flag -/

theorem foldl_resetOne_enabled {M : Type} (env : Env M) (ids : List (Fin 256))
    (w : SVHWrapper M) :
    (ids.foldl (resetOne env) w).m_channels_enabled = w.m_channels_enabled := by
  induction ids generalizing w with
  | nil => rfl
  | cons id ids ih =>
    rw [List.foldl_cons, ih]
    rfl

/-- What `homeNodesChannelIds` does when the channels-enabled flag is false on
entry: on return the flag is what the finger manager answers to
`isHomed(SVH_ALL)` after the requested resets, and the call reports
success. -/
theorem homeNodesChannelIds_disabled_entry {M : Type} (env : Env M)
    (req : HomeWithChannelsRequest) (w : SVHWrapper M)
    (hdisabled : w.m_channels_enabled = false) :
    (homeNodesChannelIds env req w).2.2.m_channels_enabled =
      env.mgr.isHomed SVH_ALL (homeNodesChannelIds env req w).2.2.m_finger_manager ∧
    (homeNodesChannelIds env req w).2.2.m_finger_manager =
      (req.channel_ids.foldl (resetOne env) w).m_finger_manager ∧
    (homeNodesChannelIds env req w).1 = true ∧
    (homeNodesChannelIds env req w).2.1.success = true := by
  have hflag := foldl_resetOne_enabled env req.channel_ids w
  rw [hdisabled] at hflag
  unfold homeNodesChannelIds
  simp only [hdisabled, Bool.false_eq_true, if_false]
  cases hh : env.mgr.isHomed SVH_ALL (req.channel_ids.foldl (resetOne env) w).m_finger_manager
  · simp [hh, hflag]
  · simp [hh]

/-- C9, the code at the failing input: the channels-enabled flag is false on
entry and the hand is not homed on all channels (channel 2 is missing), so
the branch of lines 298-303 is taken, whose comment and warning say that the
ros-control loop will not be enabled afterwards. The request resets channel 2
only; the manager then answers `isHomed(SVH_ALL)` with true, and line 312
sets the flag: it is true on return. -/
theorem homeNodesChannelIds_enables_after_reset_of_channel_2 :
    wrapperChannel2Unhomed.m_channels_enabled = false ∧
    envHoming.mgr.isHomed SVH_ALL wrapperChannel2Unhomed.m_finger_manager = false ∧
    (homeNodesChannelIds envHoming { channel_ids := [2] } wrapperChannel2Unhomed
      ).2.2.m_channels_enabled = true ∧
    (homeNodesChannelIds envHoming { channel_ids := [2] } wrapperChannel2Unhomed
      ).2.2.trace = [Call.resetChannel 2, Call.isHomed SVH_ALL] ∧
    (homeNodesChannelIds envHoming { channel_ids := [2] } wrapperChannel2Unhomed
      ).2.2.m_finger_manager = [true, true, true, true, true, true, true, true, true] :=
  ⟨rfl, by decide, by decide, rfl, by decide⟩

/-! ## C10: the firmware version handed to initControllerParameters -/

/-- The guard of `connect` where it works: with no forced version and a hand
that answers version 0.0, `connect` returns false and has neither constructed
a `DynamicParameter` nor called the manager's `connect`. -/
theorem connect_unknown_version_returns_false {M : Type} (env : Env M) (w : SVHWrapper M)
    (hmajor : w.m_firmware_major_version = 0) (hminor : w.m_firmware_minor_version = 0)
    (hinfo : ∀ dev n m, (env.mgr.getFirmwareInfo dev n m).1 =
      { version_major := 0, version_minor := 0 }) :
    (connect env w).1 = .returned false ∧
    ∃ added : List Call, (connect env w).2.trace = w.trace ++ added ∧
      added.any (fun c => c.isConnect || c.isSettingsSetter ||
        c.isDynamicParameterFor 0 0) = false := by
  unfold connect
  cases hc : env.mgr.isConnected w.m_finger_manager
  · refine ⟨by simp [hc, hmajor, hminor, hinfo],
      [Call.isConnected, Call.getFirmwareInfo w.m_serial_device_name w.m_connect_retry_count],
      by simp [hc, hmajor, hminor, hinfo], rfl⟩
  · refine ⟨by simp [hc, hmajor, hminor, hinfo],
      [Call.isConnected, Call.disconnect,
        Call.getFirmwareInfo w.m_serial_device_name w.m_connect_retry_count],
      by simp [hc, hmajor, hminor, hinfo], rfl⟩

/-- C10, the code at the failing input: the launch parameters force the
version 65536.0. Both guards of `connect` compare the `int` values with 0 and
let them pass, the cast to `uint16_t` turns 65536 into 0, and
`initControllerParameters` is called, and constructs the `DynamicParameter`,
for the version pair (0, 0); `connect` then goes on to the manager's
`connect` and returns true. -/
theorem connect_forced_65536_resolves_version_zero :
    wrapperForced65536.m_firmware_major_version = 65536 ∧
    wrapperForced65536.m_firmware_minor_version = 0 ∧
    static_cast_uint16 65536 = 0 ∧
    (connect env3 wrapperForced65536).2.trace =
      [Call.isConnected, Call.disconnect, Call.DynamicParameter 0 0,
        Call.setCurrentSettings 3 [1.0, 2.0, 0.5], Call.connect "/dev/ttyUSB0" 3] ∧
    (connect env3 wrapperForced65536).1 = .returned true :=
  ⟨rfl, rfl, by decide, rfl, rfl⟩

end SVH
